import Mathlib

/-!
Verification of the DOM ingestion → classification → compaction → reference-resolution
pipeline of the navigator-ai server.

The Python sources are shallowly embedded:
* `filters.py` (node classifier predicates) and `processor.py` (DOM graph builder)
  operate on a model of the BeautifulSoup parse tree (`BSNode`);
* `optimizer3.py` (`EnhancedHighlightStyleMapper`, the compaction engine used by
  `build_user_message`) and `optimizer10.py` (`process_element_references`, the
  reference resolver used by the tasks endpoint) operate on the `DOMHashMap`
  produced by the graph builder (pydantic models in `app/models/dom.py`).

Python-specific semantics (string `strip`/`split`/slicing, truthiness of strings and
`Optional` fields, `str.__contains__` substring tests, `list.index` value equality,
decimal rendering of integers by f-strings, insertion-ordered dicts as association
lists) are modelled by the `py*` helpers below.
-/

namespace Navigator

/-! ### Python string primitives -/

/-- Does `hay` start with `needle`? -/
def charsStartWith : List Char → List Char → Bool
  | _, [] => true
  | [], _ :: _ => false
  | a :: as, b :: bs => a == b && charsStartWith as bs

def pyInChars (needle : List Char) : List Char → Bool
  | [] => needle.isEmpty
  | c :: rest => charsStartWith (c :: rest) needle || pyInChars needle rest

/-- Python `needle in hay` for strings (substring containment). -/
def pyIn (needle hay : String) : Bool := pyInChars needle.data hay.data

/-- ASCII lower-casing of one character (kernel-reducible). -/
def charLower (c : Char) : Char :=
  if 65 ≤ c.toNat && c.toNat ≤ 90 then Char.ofNat (c.toNat + 32) else c

/-- Python `str.lower()` (ASCII, which covers tag/attribute names and inline
styles). -/
def pyLower (s : String) : String := String.mk (s.data.map charLower)

/-- Python `str.startswith(pre)`. -/
def pyStartsWith (s pre : String) : Bool := charsStartWith s.data pre.data

/-- Python `str.strip()`: remove leading and trailing whitespace. -/
def pyStrip (s : String) : String :=
  String.mk (((s.data.dropWhile Char.isWhitespace).reverse.dropWhile Char.isWhitespace).reverse)

/-- Core of Python `str.split()` (split on whitespace runs, no empty tokens);
`acc` holds the characters of the current token in reverse. -/
def pySplitAux : List Char → List Char → List String
  | [], acc => if acc.isEmpty then [] else [String.mk acc.reverse]
  | c :: cs, acc =>
      if c.isWhitespace then
        if acc.isEmpty then pySplitAux cs []
        else String.mk acc.reverse :: pySplitAux cs []
      else pySplitAux cs (c :: acc)

/-- Python `str.split()` with no separator argument. -/
def pySplit (s : String) : List String := pySplitAux s.data []

/-- Python `sep.join(parts)`. -/
def pyJoin (sep : String) : List String → String
  | [] => ""
  | [s] => s
  | s :: rest => s ++ sep ++ pyJoin sep rest

/-- Python `s[:n]` (truncation of a string to its first `n` code points). -/
def pyTake (s : String) (n : Nat) : String := String.mk (s.data.take n)

/-- Decimal digit characters of `n` written most-significant first (fuel-based so
that the kernel can evaluate it). -/
def decChars : Nat → Nat → List Char
  | 0, _ => []
  | fuel + 1, n =>
      if n < 10 then [Nat.digitChar n]
      else decChars fuel (n / 10) ++ [Nat.digitChar (n % 10)]

/-- Python `str(n)` / f-string rendering of a nonnegative integer. -/
def natDecStr (n : Nat) : String := String.mk (decChars (n + 1) n)

/-- Evaluate a decimal digit string back to a number (used to prove `natDecStr`
injective). -/
def ofDecChars (l : List Char) : Nat :=
  l.foldl (fun acc c => acc * 10 + (c.toNat - 48)) 0

/-- Python truthiness of an optional string field (`None` and `""` are falsy). -/
def pyTruthy : Option String → Bool
  | none => false
  | some s => !(s == "")

/-- First-match lookup in an insertion-ordered string map (Python `dict` access
where keys are unique; prepend-to-front models later assignments shadowing
earlier ones). -/
def lookupMap (m : List (String × String)) (k : String) : Option String :=
  (m.find? (fun p => p.1 == k)).map (fun p => p.2)

/-! ### BeautifulSoup layer (`filters.py`, `processor.py`)

`BSNode` models a node of the BeautifulSoup parse tree: a `Tag` with a name, an
attribute dict (bs4 stores multi-valued attributes such as `class` as lists of
strings, everything else as strings) and child nodes, or a `NavigableString`.
bs4 compares two tags structurally (same name, attributes and contents), which is
what the derived-by-hand decidable equality below gives. -/

inductive AttrVal where
  | str : String → AttrVal
  | lst : List String → AttrVal
deriving DecidableEq, Repr

inductive BSNode where
  | tag : String → List (String × AttrVal) → List BSNode → BSNode
  | txt : String → BSNode
deriving Repr

mutual

def bsNodeDecEq : (a b : BSNode) → Decidable (a = b)
  | .tag n1 a1 c1, .tag n2 a2 c2 =>
      if h1 : n1 = n2 then
        if h2 : a1 = a2 then
          match bsListDecEq c1 c2 with
          | .isTrue h3 => .isTrue (by rw [h1, h2, h3])
          | .isFalse h3 => .isFalse (fun h => by injection h with e1 e2 e3; exact h3 e3)
        else .isFalse (fun h => by injection h with e1 e2 e3; exact h2 e2)
      else .isFalse (fun h => by injection h with e1 e2 e3; exact h1 e1)
  | .tag _ _ _, .txt _ => .isFalse (fun h => BSNode.noConfusion h)
  | .txt _, .tag _ _ _ => .isFalse (fun h => BSNode.noConfusion h)
  | .txt s1, .txt s2 =>
      if h : s1 = s2 then .isTrue (by rw [h])
      else .isFalse (fun hh => by injection hh with e; exact h e)

def bsListDecEq : (a b : List BSNode) → Decidable (a = b)
  | [], [] => .isTrue rfl
  | [], _ :: _ => .isFalse (fun h => List.noConfusion h)
  | _ :: _, [] => .isFalse (fun h => List.noConfusion h)
  | x :: xs, y :: ys =>
      match bsNodeDecEq x y, bsListDecEq xs ys with
      | .isTrue h1, .isTrue h2 => .isTrue (by rw [h1, h2])
      | .isFalse h1, _ => .isFalse (fun h => by injection h with e1 e2; exact h1 e1)
      | _, .isFalse h2 => .isFalse (fun h => by injection h with e1 e2; exact h2 e2)

end

instance : DecidableEq BSNode := bsNodeDecEq

/-- The tag name of a bs4 node (`NavigableString`s have no usable name). -/
def bsName : BSNode → String
  | .tag n _ _ => n
  | .txt _ => ""

def bsIsTag : BSNode → Bool
  | .tag _ _ _ => true
  | .txt _ => false

def bsChildren : BSNode → List BSNode
  | .tag _ _ c => c
  | .txt _ => []

def bsAttrs : BSNode → List (String × AttrVal)
  | .tag _ a _ => a
  | .txt _ => []

/-- Python `element.get(key)` on the bs4 attribute dict. -/
def bsGet (el : BSNode) (key : String) : Option AttrVal :=
  ((bsAttrs el).find? (fun p => p.1 == key)).map (fun p => p.2)

/-- Python `element.has_attr(key)`. -/
def bsHasAttr (el : BSNode) (key : String) : Bool := (bsGet el key).isSome

/-! ### Node classifier (`filters.py`) -/

/-- Class-name patterns that mark an element hidden (`filters.py:61`). -/
def hiddenClasses : List String := ["hidden", "invisible", "displaynone", "nodisplay"]

/-- The `class` attribute as a token list: bs4 stores it as a list; a plain string
is split on whitespace (`class_attr if isinstance(class_attr, list) else
str(class_attr).split()`); an absent attribute defaults to `[]`. -/
def classTokens (el : BSNode) : List String :=
  match bsGet el "class" with
  | some (.lst l) => l
  | some (.str s) => pySplit s
  | none => []

/-- `is_element_visible` (`filters.py:35-69`).  A present (non-`None`) bs4 tag is
truthy, so the `if not element` guard does not fire; a `NavigableString` argument
has no `.get` and falls into the fail-safe `except` branch.  A list-valued
`style` attribute makes `style_attr.lower()` raise `AttributeError`, which the
`except` branch turns into `False`. -/
def is_element_visible : BSNode → Bool
  | .txt _ => false
  | .tag nm attrs cs =>
      let el : BSNode := .tag nm attrs cs
      match bsGet el "style" with
      | some (.lst _) => false
      | styleVal =>
          let style := match styleVal with
            | some (.str s) => s
            | _ => ""
          if pyIn "display:none" (pyLower style) || pyIn "visibility:hidden" (pyLower style) then
            false
          else if (bsGet el "hidden").isSome || bsGet el "aria-hidden" == some (.str "true") then
            false
          else if (classTokens el).any (fun cn => hiddenClasses.any (fun hc => pyIn hc (pyLower cn))) then
            false
          else
            true

/-- `is_top_element` (`filters.py:72-97`).  A list-valued `style` raises inside the
`try`, and the fail-safe default for this predicate is `True`. -/
def is_top_element : BSNode → Bool
  | .txt _ => true
  | .tag nm attrs cs =>
      let el : BSNode := .tag nm attrs cs
      if pyLower nm == "body" || pyLower nm == "html" then false
      else
        match bsGet el "style" with
        | some (.lst _) => true
        | styleVal =>
            let style := match styleVal with
              | some (.str s) => s
              | _ => ""
            if pyIn "z-index:-" (pyLower style) || pyIn "z-index: -" (pyLower style) then false
            else true

/-- `is_text_node_visible` (`filters.py:100-117`): empty-after-strip text and text
without a parent are invisible, otherwise visibility is the parent's. -/
def is_text_node_visible (parent? : Option BSNode) (s : String) : Bool :=
  if pyStrip s == "" then false
  else
    match parent? with
    | none => false
    | some p => is_element_visible p

/-- Tag whitelist of `is_interactive_element`. -/
def interactiveElements : List String :=
  ["a", "button", "details", "embed", "input", "label",
   "menu", "menuitem", "object", "select", "textarea", "summary"]

/-- Role whitelist of `is_interactive_element`. -/
def interactiveRoles : List String :=
  ["button", "menu", "menuitem", "link", "checkbox", "radio",
   "slider", "tab", "tabpanel", "textbox", "combobox", "grid",
   "listbox", "option", "progressbar", "scrollbar", "searchbox",
   "switch", "tree", "treeitem", "spinbutton", "tooltip",
   "a-button-inner", "a-dropdown-button", "click", "menuitemcheckbox",
   "menuitemradio", "a-button-text", "button-text", "button-icon",
   "button-icon-only", "button-text-icon-only", "dropdown"]

/-- Python `x in interactive_roles` where `x = element.get(key, '')`: a missing
attribute compares as `''` and a list-valued attribute is never equal to any
string in the set. -/
def attrInRoles (el : BSNode) (key : String) : Bool :=
  match bsGet el key with
  | some (.str s) => interactiveRoles.contains s
  | _ => false

/-- `is_interactive_element` (`filters.py:120-214`).  `parent?` is the bs4 parent of
the element (used for the `tabindex` and direct-child-of-body checks). -/
def is_interactive_element (parent? : Option BSNode) : BSNode → Bool
  | .txt _ => false
  | .tag nm attrs cs =>
      let el : BSNode := .tag nm attrs cs
      let tagName := pyLower nm
      if tagName == "body" then false
      else
        let parentTag := match parent? with
          | some p => if bsIsTag p && bsName p ≠ "" then pyLower (bsName p) else ""
          | none => ""
        let classList := classTokens el
        let hasAddressInputClass := classList.contains "address-input__container__input"
        let tabIndexOk :=
          match bsGet el "tabindex" with
          | none => false
          | some v => !(v == AttrVal.str "-1") && parentTag ≠ "body"
        let hasInteractiveRole :=
          hasAddressInputClass ||
          interactiveElements.contains tagName ||
          attrInRoles el "role" ||
          attrInRoles el "aria-role" ||
          tabIndexOk ||
          bsGet el "data-action" == some (.str "a-dropdown-select") ||
          bsGet el "data-action" == some (.str "a-dropdown-button")
        if hasInteractiveRole then true
        else
          let hasClickHandler :=
            (bsGet el "onclick").isSome ||
            bsHasAttr el "ng-click" ||
            bsHasAttr el "@click" ||
            bsHasAttr el "v-on:click"
          let hasAriaProps :=
            bsHasAttr el "aria-expanded" ||
            bsHasAttr el "aria-pressed" ||
            bsHasAttr el "aria-selected" ||
            bsHasAttr el "aria-checked"
          let isDraggable := bsGet el "draggable" == some (.str "true")
          if tagName == "body" || parentTag == "body" then false
          else hasAriaProps || hasClickHandler || isDraggable

/-! ### DOM graph builder (`processor.py`)

`get_xpath_for_element` walks the chain of bs4 parents.  In the embedding a node's
position in the soup is given by the list of its ancestors, nearest first, ending
with the `BeautifulSoup` document object itself (a tag named `"[document]"`). -/

/-- One XPath segment for `cur` whose parent has children `parentChildren?`
(`none` when `current.parent` is `None`).  Mirrors `processor.py:20-32`: the
1-based index is `siblings.index(current) + 1`, where `list.index` compares by
bs4 value equality and raises `ValueError` (here `none`) when the element is
absent from its own sibling list. -/
def xpathSegment (parentChildren? : Option (List BSNode)) (cur : BSNode) : Option String :=
  let part := pyLower (bsName cur)
  match parentChildren? with
  | none => some part
  | some cs =>
      let siblings := cs.filter (fun s => bsIsTag s && bsName s == part)
      if siblings.length > 1 then
        match siblings.indexOf? cur with
        | some idx => some (part ++ "[" ++ natDecStr (idx + 1) ++ "]")
        | none => none
      else
        some part

/-- The `while` loop of `get_xpath_for_element`, collecting segments from the
element up to (and including) the document; the loop stops at a node without a
truthy `.name` or at a `None` parent. -/
def xpathWalk : BSNode → List BSNode → Option (List String)
  | cur, ancestors =>
      if bsIsTag cur && bsName cur ≠ "" then
        match ancestors with
        | [] => (xpathSegment none cur).map (fun s => [s])
        | p :: rest =>
            match xpathSegment (some (bsChildren p)) cur with
            | none => none
            | some s =>
                match xpathWalk p rest with
                | none => none
                | some tail => some (s :: tail)
      else some []

/-- `get_xpath_for_element` (`processor.py:14-40`): parts are assembled root-first,
`"[document]"` parts are dropped, and any `ValueError` raised by `list.index`
is caught and turned into `"/unknown"`. -/
def get_xpath_for_element (ancestors : List BSNode) (el : BSNode) : String :=
  match xpathWalk el ancestors with
  | none => "/unknown"
  | some parts => "/" ++ pyJoin "/" (parts.reverse.filter (fun p => p ≠ "[document]"))

/-! The node graph produced by `parse_dom` (pydantic models `DOMElementNode` /
`DOMTextNode` in `app/models/dom.py`; `DOMHashMap = Dict[str, DOMNode]`, modelled
as an insertion-ordered association list). -/

structure DOMElementNode where
  tagName : String
  attributes : List (String × String)
  xpath : String
  children : List Nat
  isInteractive : Bool
  isVisible : Bool
  isTopElement : Bool
deriving DecidableEq, Repr

inductive DOMNode where
  | element : DOMElementNode → DOMNode
  | textNode : String → Bool → DOMNode
deriving DecidableEq, Repr

def DOMHashMap := List (String × DOMNode)

/-- Python dict read `dom[k]` / `k in dom`. -/
def domGet (dom : DOMHashMap) (k : String) : Option DOMNode :=
  (List.find? (fun p => p.1 == k) dom).map (fun p => p.2)

/-- Attribute extraction of `parse_dom` (`processor.py:99-107`): list values are
joined with spaces, everything else is `str(...)`-converted. -/
def extractAttrs (attrs : List (String × AttrVal)) : List (String × String) :=
  attrs.map (fun p =>
    match p.2 with
    | .lst l => (p.1, pyJoin " " l)
    | .str s => (p.1, s))

mutual

/-- `process_node` inside `parse_dom` (`processor.py:61-160`).  Takes the bs4
parent (for text-node visibility and interactivity checks), the ancestor chain
(for XPath computation) and the running node-id counter; returns the id assigned
to this node (`none` models the `-1` of skipped nodes), the next counter value,
and the `dom_hash_map` entries contributed by this subtree in Python insertion
order (the element first, then its descendants).  Note that even a skipped empty
text node consumes an id, exactly as in the source. -/
def processNode (parent? : Option BSNode) (ancestors : List BSNode) (cid : Nat) :
    BSNode → Option Nat × Nat × List (String × DOMNode)
  | .txt s =>
      let t := pyStrip s
      if t == "" then (none, cid + 1, [])
      else (some cid, cid + 1,
        [(natDecStr cid, DOMNode.textNode t (is_text_node_visible parent? s))])
  | .tag nm attrs cs =>
      let self : BSNode := .tag nm attrs cs
      let el : DOMElementNode :=
        { tagName := pyLower nm
          attributes := extractAttrs attrs
          xpath := get_xpath_for_element ancestors self
          children := []
          isInteractive := is_interactive_element parent? self
          isVisible := is_element_visible self
          isTopElement := is_top_element self }
      let r := processChildren (some self) (self :: ancestors) (cid + 1) cs
      (some cid, r.2.1,
        (natDecStr cid, DOMNode.element { el with children := r.1 }) :: r.2.2)

/-- The child loop of `process_node`: ids of materialized children (those whose
`process_node` call did not return `-1`) in document order, the final counter,
and the accumulated map entries. -/
def processChildren (parent? : Option BSNode) (ancestors : List BSNode) (cid : Nat) :
    List BSNode → List Nat × Nat × List (String × DOMNode)
  | [] => ([], cid, [])
  | c :: rest =>
      let r := processNode parent? ancestors cid c
      let rs := processChildren parent? ancestors r.2.1 rest
      ((match r.1 with | some i => i :: rs.1 | none => rs.1), rs.2.1, r.2.2 ++ rs.2.2)

end

/-- `parse_dom` (`processor.py:43-175`), starting from `soup.body`.  The first
argument is `soup.body` (`none` when the document has no body, including the
totally malformed case) and `bodyAncestors` is the parent chain of the body tag
inside the soup (normally `[html, document]`).  If the body is absent the
function logs and returns the empty map. -/
def parse_dom (body? : Option BSNode) (bodyAncestors : List BSNode) : DOMHashMap :=
  match body? with
  | none => []
  | some b => (processNode bodyAncestors.head? bodyAncestors 0 b).2.2

mutual

/-- Number of nodes of a bs4 subtree. -/
def nodeCount : BSNode → Nat
  | .txt _ => 1
  | .tag _ _ cs => 1 + nodeCountList cs

/-- Number of nodes of a bs4 forest. -/
def nodeCountList : List BSNode → Nat
  | [] => 0
  | c :: rest => nodeCount c + nodeCountList rest

end

/-! ### Compaction engine (`optimizer3.py`, `EnhancedHighlightStyleMapper`) -/

def domTagName : DOMNode → String
  | .element e => e.tagName
  | .textNode _ _ => ""

def domAttributes : DOMNode → List (String × String)
  | .element e => e.attributes
  | .textNode _ _ => []

def domChildren : DOMNode → List Nat
  | .element e => e.children
  | .textNode _ _ => []

/-- `_is_text_node`: `DOMTextNode` carries `type = "TEXT_NODE"`. -/
def isTextNode : DOMNode → Bool
  | .textNode _ _ => true
  | .element _ => false

/-- Python `key in attributes and attributes[key]` (present and truthy). -/
def attrTruthy (attrs : List (String × String)) (k : String) : Option String :=
  match lookupMap attrs k with
  | some v => if v == "" then none else some v
  | none => none

/-- Form-control whitelist of `_preprocess_dom` (`optimizer3.py:120`). -/
def formTags : List String := ["input", "select", "textarea", "button", "a"]

/-- Testing attributes tried by `_generate_selector` (`optimizer3.py:327`). -/
def dataAttrs : List String := ["data-testid", "data-cy", "data-test", "data-qa"]

/-- `_generate_selector` (`optimizer3.py:317-390`), translated clause by clause:
truthy `id`; first truthy `data-*` testing attribute; for `input` the present
`type`/`name` attribute selectors (returned only when at least one exists); for
`a` a short non-`javascript:` `href`; the first class token longer than 3
characters not starting with `js-`; `#parentId > tag` for a parent with a truthy
id; `parentTag > tag:nth-of-type(k)` with `k` the 1-based position of this node
id among the parent's same-tag element children; else the bare tag name. -/
def _generate_selector (tag_name : String) (attributes : List (String × String))
    (dom : DOMHashMap) (parent_map : List (String × String)) (elem_id : String) : String :=
  if tag_name == "" then ""
  else
    match attrTruthy attributes "id" with
    | some v => "#" ++ v
    | none =>
    match dataAttrs.findSome?
        (fun a => (attrTruthy attributes a).map (fun v => "[" ++ a ++ "='" ++ v ++ "']")) with
    | some s => s
    | none =>
    let inputSel : Option String :=
      if tag_name == "input" then
        let parts := [tag_name]
          ++ (match lookupMap attributes "type" with
              | some v => ["[type='" ++ v ++ "']"]
              | none => [])
          ++ (match lookupMap attributes "name" with
              | some v => ["[name='" ++ v ++ "']"]
              | none => [])
        if parts.length > 1 then some (String.join parts) else none
      else none
    match inputSel with
    | some s => s
    | none =>
    let hrefSel : Option String :=
      if tag_name == "a" then
        match lookupMap attributes "href" with
        | some href =>
            if href.length < 50 && !pyStartsWith href "javascript:" then
              some ("a[href='" ++ href ++ "']")
            else none
        | none => none
      else none
    match hrefSel with
    | some s => s
    | none =>
    let classSel : Option String :=
      match attrTruthy attributes "class" with
      | some cls =>
          match (pySplit cls).filter (fun c => c.length > 3 && !(pyStartsWith c "js-")) with
          | c :: _ => some (tag_name ++ "." ++ c)
          | [] => none
      | none => none
    match classSel with
    | some s => s
    | none =>
    let parentSel : Option String :=
      match lookupMap parent_map elem_id with
      | none => none
      | some pid =>
          if pid == "" then none
          else
            match domGet dom pid with
            | none => none
            | some parentNode =>
                let parent_tag := pyLower (domTagName parentNode)
                match attrTruthy (domAttributes parentNode) "id" with
                | some pv => some ("#" ++ pv ++ " > " ++ tag_name)
                | none =>
                    let siblings := (domChildren parentNode).filterMap (fun cid =>
                      match domGet dom (natDecStr cid) with
                      | some child =>
                          if !(isTextNode child) && pyLower (domTagName child) == tag_name then
                            some (natDecStr cid)
                          else none
                      | none => none)
                    if siblings.isEmpty then none
                    else
                      match siblings.indexOf? elem_id with
                      | some i =>
                          some (parent_tag ++ " > " ++ tag_name ++ ":nth-of-type(" ++
                            natDecStr (i + 1) ++ ")")
                      | none => none
    match parentSel with
    | some s => s
    | none => tag_name

/-- Per-invocation registry state of the mapper (reset by
`create_highlight_representation` before `_preprocess_dom` runs). -/
structure RegState where
  element_map : List (String × String) := []
  interactive : List String := []
  xpath_map : List (String × String) := []
  selector_map : List (String × String) := []
  next_id : Nat := 1
deriving DecidableEq, Repr

/-- First pass of `_preprocess_dom` (`optimizer3.py:98-107`): map each child id
that exists in the graph to its parent's id (later assignments shadow earlier
ones, hence the prepend).  An integer child id never equals a string dict key, so
only the `str(child_id)` probe can succeed. -/
def buildParentMap (dom : DOMHashMap) : List (String × String) :=
  dom.foldl (fun pm kv =>
    match kv.2 with
    | .textNode _ _ => pm
    | .element e =>
        e.children.foldl (fun pm cid =>
          if (domGet dom (natDecStr cid)).isSome then (natDecStr cid, kv.1) :: pm else pm) pm) []

/-- Second pass of `_preprocess_dom` (`optimizer3.py:109-135`) for one graph
entry: skip text nodes and invisible elements; register interactive-or-form-tag
elements under the next `E<n>` identifier, recording the xpath and the
synthesized selector when they are non-empty (truthy). -/
def registerStep (dom : DOMHashMap) (pm : List (String × String)) (st : RegState)
    (kv : String × DOMNode) : RegState :=
  match kv.2 with
  | .textNode _ _ => st
  | .element e =>
      if !e.isVisible then st
      else
        let tag_name := pyLower e.tagName
        if e.isInteractive || formTags.contains tag_name then
          let element_id := "E" ++ natDecStr st.next_id
          let sel := _generate_selector tag_name e.attributes dom pm kv.1
          { element_map := st.element_map ++ [(kv.1, element_id)]
            interactive := st.interactive ++ [kv.1]
            xpath_map :=
              if !(e.xpath == "") then st.xpath_map ++ [(element_id, e.xpath)] else st.xpath_map
            selector_map :=
              if !(sel == "") then st.selector_map ++ [(element_id, sel)] else st.selector_map
            next_id := st.next_id + 1 }
        else st

/-- `_preprocess_dom`: the parent map and the fully populated registry. -/
def _preprocess_dom (dom : DOMHashMap) : List (String × String) × RegState :=
  let pm := buildParentMap dom
  (pm, dom.foldl (registerStep dom pm) {})

def parentMapOf (dom : DOMHashMap) : List (String × String) := (_preprocess_dom dom).1

def elementMapOf (dom : DOMHashMap) : List (String × String) := (_preprocess_dom dom).2.element_map

def interactiveOf (dom : DOMHashMap) : List String := (_preprocess_dom dom).2.interactive

def xpathMapOf (dom : DOMHashMap) : List (String × String) := (_preprocess_dom dom).2.xpath_map

def selectorMapOf (dom : DOMHashMap) : List (String × String) := (_preprocess_dom dom).2.selector_map

/-- `self.max_text_length` of the mapper (`optimizer3.py:31`). -/
def maxTextLength : Nat := 500

/-- `self.max_depth` default (`optimizer3.py:13`). -/
def maxDepth : Nat := 10

/-- Child-id key resolution used by the text collector (`optimizer3.py:202-208`):
only the `str(child_id)` probe can hit a string-keyed dict. -/
def keyForChild (dom : DOMHashMap) (cid : Nat) : Option String :=
  if (domGet dom (natDecStr cid)).isSome then some (natDecStr cid) else none

/-- `collect_text` inside `_get_text_till_next_highlighted`
(`optimizer3.py:182-211`).  The state is `(visited, text_parts)`; the fuel is the
remaining recursion depth (`current_depth > max_depth` stops), so the top-level
call gets `maxDepth + 1`.  Descent stops at any other highlighted (interactive)
element, but only after marking it visited. -/
def collectText (dom : DOMHashMap) (inter : List String) (elemId : String) :
    Nat → String → List String × List String → List String × List String
  | 0, _, st => st
  | fuel + 1, nodeId, st =>
      if st.1.contains nodeId || (domGet dom nodeId).isNone then st
      else
        let visited := st.1 ++ [nodeId]
        match domGet dom nodeId with
        | none => st
        | some node =>
            if nodeId ≠ elemId && inter.contains nodeId then (visited, st.2)
            else
              match node with
              | .textNode t vis =>
                  if vis && !(pyStrip t == "") then (visited, st.2 ++ [pyStrip t])
                  else (visited, st.2)
              | .element e =>
                  e.children.foldl (fun st cid =>
                    match keyForChild dom cid with
                    | some k => collectText dom inter elemId fuel k st
                    | none => st) (visited, st.2)

/-- `_get_text_till_next_highlighted` (`optimizer3.py:173-220`): join the collected
parts with single spaces, strip, and truncate to `max_text_length - 3` characters
plus `"..."` when the joined text exceeds `max_text_length`. -/
def _get_text_till_next_highlighted (dom : DOMHashMap) (inter : List String)
    (elemId : String) : String :=
  let parts := (collectText dom inter elemId (maxDepth + 1) elemId ([], [])).2
  let text := pyStrip (pyJoin " " parts)
  if !(text == "") && text.length > maxTextLength then
    pyTake text (maxTextLength - 3) ++ "..."
  else text

/-- The `while current:` walk of `_has_highlighted_parent` (`optimizer3.py:164-171`).
The source loops forever on a cyclic parent map; an acyclic walk visits at most
`pm.length` distinct keys, which the fuel covers. -/
def hasHighlightedParentAux (pm : List (String × String)) (inter : List String) :
    Nat → Option String → Bool
  | 0, _ => false
  | _ + 1, none => false
  | fuel + 1, some cur =>
      if cur == "" then false
      else if inter.contains cur then true
      else hasHighlightedParentAux pm inter fuel (lookupMap pm cur)

def _has_highlighted_parent (pm : List (String × String)) (inter : List String)
    (elemId : String) : Bool :=
  hasHighlightedParentAux pm inter (pm.length + 1) (lookupMap pm elemId)

/-- `_extract_standalone_text` (`optimizer3.py:289-315`): visible text nodes not
yet processed and without a highlighted ancestor, whose stripped text has at
least 15 characters, are emitted as `"- <text>"` bullets, truncated to
`max_text_length` characters plus `"..."` when longer than `max_text_length`. -/
def extractStep (inter : List String) (pm : List (String × String))
    (acc : List String × List String) (kv : String × DOMNode) : List String × List String :=
  match kv.2 with
  | .element _ => acc
  | .textNode t vis =>
      if !vis then acc
      else if acc.2.contains kv.1 then acc
      else if _has_highlighted_parent pm inter kv.1 then (acc.1, acc.2 ++ [kv.1])
      else
        let text := pyStrip t
        if text == "" || text.length < 15 then acc
        else
          let text' :=
            if text.length > maxTextLength then pyTake text maxTextLength ++ "..." else text
          (acc.1 ++ ["- " ++ text'], acc.2 ++ [kv.1])

def _extract_standalone_text (dom : DOMHashMap) (inter : List String)
    (pm : List (String × String)) : List String :=
  (dom.foldl (extractStep inter pm) ([], [])).1

/-! ### Reference resolver (`optimizer10.py:394-421`)

Agent actions are instances of the pydantic model `Action` in `app/api/utils/llm.py`
with exactly the declared fields below.  Assigning to an attribute that is not a
declared field of a pydantic `BaseModel` raises
`ValueError: "Action" object has no field "..."`; the resolver's legacy branch
executes `action.xpath = xpath_map[element_id]`, and `Action` declares no `xpath`
field, so that statement raises.  Exceptions are modelled with `Except`. -/

structure Action where
  type : String := ""
  element_id : Option String := none
  xpath_ref : Option String := none
  selector : Option String := none
  text : Option String := none
  amount : Option Int := none
  url : Option String := none
deriving DecidableEq, Repr

/-- One iteration of the action loop of `process_element_references`.  The primary
branch (`element_id` truthy) assigns the declared fields `xpath_ref` and
`selector`; the legacy branch (`xpath_ref` truthy) assigns `action.xpath`, which
is not a declared field and raises as soon as the identifier is found in
`xpath_map`. -/
def resolveAction (xm sm : List (String × String)) (a : Action) : Except String Action :=
  if pyTruthy a.element_id then
    let e := a.element_id.getD ""
    let a1 := match lookupMap xm e with
      | some x => { a with xpath_ref := some x }
      | none => a
    let a2 := match lookupMap sm e with
      | some s => { a1 with selector := some s }
      | none => a1
    .ok a2
  else if pyTruthy a.xpath_ref then
    let e := a.xpath_ref.getD ""
    match lookupMap xm e with
    | some _ => .error "ValueError: Action object has no field xpath"
    | none =>
        match lookupMap sm e with
        | some s => .ok { a with selector := some s }
        | none => .ok a
  else .ok a

/-- The `for action in actions:` loop of `process_element_references`; an
exception raised for any action aborts the whole call. -/
def resolveActions (xm sm : List (String × String)) : List Action → Except String (List Action)
  | [] => .ok []
  | a :: rest =>
      match resolveAction xm sm a with
      | .error e => .error e
      | .ok a' =>
          match resolveActions xm sm rest with
          | .error e => .error e
          | .ok rest' => .ok (a' :: rest')

/-- `process_element_references` over the `actions` list of a `GenerateResponse`.
The maps are only read; they are returned unchanged to make that observable. -/
def process_element_references (actions : List Action) (xm sm : List (String × String)) :
    Except String (List Action × List (String × String) × List (String × String)) :=
  match resolveActions xm sm actions with
  | .ok acts => .ok (acts, xm, sm)
  | .error e => .error e

/-- The identifier an action would be resolved by: the truthy `element_id` if any,
else the truthy legacy `xpath_ref`, else none. -/
def actionIdent (a : Action) : Option String :=
  if pyTruthy a.element_id then a.element_id
  else if pyTruthy a.xpath_ref then a.xpath_ref
  else none

/-- The action's identifier (if any) is absent from both lookup maps. -/
def unknownIdent (xm sm : List (String × String)) (a : Action) : Bool :=
  match actionIdent a with
  | some e => (lookupMap xm e).isNone && (lookupMap sm e).isNone
  | none => true

/-! ### Specification-side definitions

These definitions are written from the words of the specification (not from the
source) and are compared with the source embeddings above: `selectorSpec*`
against `_generate_selector` and `visibleFalse*` against `is_element_visible`. -/

/-- Claim C5 rule (a): `#id` if an `id` attribute exists. -/
def specRuleId (attrs : List (String × String)) : Option String :=
  (lookupMap attrs "id").map (fun v => "#" ++ v)

/-- Claim C5 rule (b): a `data-testid`/`data-cy`/`data-test`/`data-qa` attribute
selector if present. -/
def specRuleData (attrs : List (String × String)) : Option String :=
  dataAttrs.findSome? (fun a => (lookupMap attrs a).map (fun v => "[" ++ a ++ "='" ++ v ++ "']"))

/-- Claim C5 rule (c): for `input`, the combination of `[type=...]` and `[name=...]`
when either exists. -/
def specRuleInput (tag : String) (attrs : List (String × String)) : Option String :=
  if tag == "input" then
    let parts := [tag]
      ++ (match lookupMap attrs "type" with
          | some v => ["[type='" ++ v ++ "']"]
          | none => [])
      ++ (match lookupMap attrs "name" with
          | some v => ["[name='" ++ v ++ "']"]
          | none => [])
    if parts.length > 1 then some (String.join parts) else none
  else none

/-- Claim C5 rule (d): for `a`, `a[href='...']` if the href is shorter than 50
characters and not a `javascript:` URI. -/
def specRuleHref (tag : String) (attrs : List (String × String)) : Option String :=
  if tag == "a" then
    match lookupMap attrs "href" with
    | some href =>
        if href.length < 50 && !pyStartsWith href "javascript:" then
          some ("a[href='" ++ href ++ "']")
        else none
    | none => none
  else none

/-- Claim C5 rule (e): `tag.class` using the first class token longer than 3
characters not starting with `js-`. -/
def specRuleClass (tag : String) (attrs : List (String × String)) : Option String :=
  match lookupMap attrs "class" with
  | some cls =>
      match (pySplit cls).filter (fun c => c.length > 3 && !(pyStartsWith c "js-")) with
      | c :: _ => some (tag ++ "." ++ c)
      | [] => none
  | none => none

/-- Claim C5 rules (f) and (g): `#parentId > tag` if the parent has an `id`, else
`parentTag > tag:nth-of-type(k)` with `k` the 1-based position among same-tag
siblings under the same parent. -/
def specRuleParent (tag : String) (dom : DOMHashMap) (pm : List (String × String))
    (elemId : String) : Option String :=
  match lookupMap pm elemId with
  | none => none
  | some pid =>
      match domGet dom pid with
      | none => none
      | some parentNode =>
          match lookupMap (domAttributes parentNode) "id" with
          | some pv => some ("#" ++ pv ++ " > " ++ tag)
          | none =>
              let siblings := (domChildren parentNode).filterMap (fun cid =>
                match domGet dom (natDecStr cid) with
                | some child =>
                    if !(isTextNode child) && pyLower (domTagName child) == tag then
                      some (natDecStr cid)
                    else none
                | none => none)
              match siblings.indexOf? elemId with
              | some i =>
                  some (pyLower (domTagName parentNode) ++ " > " ++ tag ++ ":nth-of-type(" ++
                    natDecStr (i + 1) ++ ")")
              | none => none

/-- Claim C5 as stated: rules (a)-(h) tried in order, first match wins, attribute
rules firing on attribute *presence*. -/
def selectorSpecClaimed (tag : String) (attrs : List (String × String)) (dom : DOMHashMap)
    (pm : List (String × String)) (elemId : String) : String :=
  match specRuleId attrs with
  | some s => s
  | none =>
  match specRuleData attrs with
  | some s => s
  | none =>
  match specRuleInput tag attrs with
  | some s => s
  | none =>
  match specRuleHref tag attrs with
  | some s => s
  | none =>
  match specRuleClass tag attrs with
  | some s => s
  | none =>
  match specRuleParent tag dom pm elemId with
  | some s => s
  | none => tag

/-- Amended rule (a): the `id` attribute must be present *and non-empty*. -/
def specRuleIdT (attrs : List (String × String)) : Option String :=
  (attrTruthy attrs "id").map (fun v => "#" ++ v)

/-- Amended rule (b): the testing attribute must be present *and non-empty*. -/
def specRuleDataT (attrs : List (String × String)) : Option String :=
  dataAttrs.findSome? (fun a => (attrTruthy attrs a).map (fun v => "[" ++ a ++ "='" ++ v ++ "']"))

/-- Amended rule (e): the `class` attribute must be non-empty (token filter as in
the claim). -/
def specRuleClassT (tag : String) (attrs : List (String × String)) : Option String :=
  match attrTruthy attrs "class" with
  | some cls =>
      match (pySplit cls).filter (fun c => c.length > 3 && !(pyStartsWith c "js-")) with
      | c :: _ => some (tag ++ "." ++ c)
      | [] => none
  | none => none

/-- Amended rules (f)/(g): the recorded parent id must be non-empty, rule (f)
requires the parent to have a non-empty `id` attribute, and rule (g) requires the
node to appear among the parent's same-tag element children. -/
def specRuleParentT (tag : String) (dom : DOMHashMap) (pm : List (String × String))
    (elemId : String) : Option String :=
  match lookupMap pm elemId with
  | none => none
  | some pid =>
      if pid == "" then none
      else
        match domGet dom pid with
        | none => none
        | some parentNode =>
            match attrTruthy (domAttributes parentNode) "id" with
            | some pv => some ("#" ++ pv ++ " > " ++ tag)
            | none =>
                let siblings := (domChildren parentNode).filterMap (fun cid =>
                  match domGet dom (natDecStr cid) with
                  | some child =>
                      if !(isTextNode child) && pyLower (domTagName child) == tag then
                        some (natDecStr cid)
                      else none
                  | none => none)
                if siblings.isEmpty then none
                else
                  match siblings.indexOf? elemId with
                  | some i =>
                      some (pyLower (domTagName parentNode) ++ " > " ++ tag ++ ":nth-of-type(" ++
                        natDecStr (i + 1) ++ ")")
                  | none => none

/-- Claim C5 amended: as claimed, but the attribute-based rules (a), (b), (e), (f)
fire only on non-empty (Python-truthy) values, and an empty tag name yields the
empty selector. -/
def selectorSpecAmended (tag : String) (attrs : List (String × String)) (dom : DOMHashMap)
    (pm : List (String × String)) (elemId : String) : String :=
  if tag == "" then ""
  else
    match specRuleIdT attrs with
    | some s => s
    | none =>
    match specRuleDataT attrs with
    | some s => s
    | none =>
    match specRuleInput tag attrs with
    | some s => s
    | none =>
    match specRuleHref tag attrs with
    | some s => s
    | none =>
    match specRuleClassT tag attrs with
    | some s => s
    | none =>
    match specRuleParentT tag dom pm elemId with
    | some s => s
    | none => tag

/-- Claim C9 as stated: `isVisible` is false exactly when the style hides the
element, a hidden marker attribute is present, or some class token *equals* one
of the hidden class names. -/
def visibleFalseClaimed (el : BSNode) : Bool :=
  let style := match bsGet el "style" with
    | some (.str s) => s
    | _ => ""
  pyIn "display:none" (pyLower style) || pyIn "visibility:hidden" (pyLower style) ||
  (bsGet el "hidden").isSome || bsGet el "aria-hidden" == some (.str "true") ||
  (classTokens el).any (fun cn => hiddenClasses.contains (pyLower cn))

/-- Claim C9 amended: class tokens are matched by case-insensitive *substring*
containment, and a list-valued `style` attribute is an internal error (fail-safe
false). -/
def visibleFalseAmended (el : BSNode) : Bool :=
  match bsGet el "style" with
  | some (.lst _) => true
  | styleVal =>
      let style := match styleVal with
        | some (.str s) => s
        | _ => ""
      (pyIn "display:none" (pyLower style) || pyIn "visibility:hidden" (pyLower style)) ||
      ((bsGet el "hidden").isSome || bsGet el "aria-hidden" == some (.str "true")) ||
      (classTokens el).any (fun cn => hiddenClasses.any (fun hc => pyIn hc (pyLower cn)))

/-! ### Concrete graphs used by counterexamples and witnesses -/

/-- `<body><a href="/x"/><a href="/x"/></body>` as a `DOMHashMap`: two links with no
`id`, no `data-*` testing attribute, no class, under a parent without an `id`. -/
def domLinksHref : DOMHashMap :=
  [("0", .element ⟨"body", [], "/body", [1, 2], false, true, false⟩),
   ("1", .element ⟨"a", [("href", "/x")], "/body/a[1]", [], false, true, true⟩),
   ("2", .element ⟨"a", [("href", "/x")], "/body/a[2]", [], false, true, true⟩)]

/-- The same two-link graph with `javascript:` hrefs, so that the href rule (d)
does not apply. -/
def domLinksJs : DOMHashMap :=
  [("0", .element ⟨"body", [], "/body", [1, 2], false, true, false⟩),
   ("1", .element ⟨"a", [("href", "javascript:void(0)")], "/body/a[1]", [], false, true, true⟩),
   ("2", .element ⟨"a", [("href", "javascript:void(0)")], "/body/a[2]", [], false, true, true⟩)]

/-- A 501-character text. -/
def longText : String := String.mk (List.replicate 501 'a')

/-- `<body>` owning a single 501-character text node. -/
def domLongText : DOMHashMap :=
  [("0", .element ⟨"body", [], "/body", [1], false, true, false⟩),
   ("1", .textNode longText true)]

/-- `<body>` owning a short standalone text node. -/
def domShortText : DOMHashMap :=
  [("0", .element ⟨"body", [], "/body", [1], false, true, false⟩),
   ("1", .textNode "standalone page text here" true)]

/-- Registration predicate of `_preprocess_dom`: element nodes that are visible
and interactive-or-form-tagged (used to state claim C4). -/
def shouldRegister : DOMNode → Bool
  | .element e => e.isVisible && (e.isInteractive || formTags.contains (pyLower e.tagName))
  | .textNode _ _ => false

/-- The element-map entries contributed by a graph segment when registration
starts at identifier number `n` (characterizes the `_preprocess_dom` fold). -/
def regDelta : List (String × DOMNode) → Nat → List (String × String)
  | [], _ => []
  | kv :: rest, n =>
      if shouldRegister kv.2 then (kv.1, "E" ++ natDecStr n) :: regDelta rest (n + 1)
      else regDelta rest n

/-! ## Theorems -/

/-! ### Helper lemmas -/

theorem digitChar_val {d : Nat} (h : d < 10) : (Nat.digitChar d).toNat - 48 = d := by
  interval_cases d <;> rfl

theorem ofDecChars_append_singleton (l : List Char) (c : Char) :
    ofDecChars (l ++ [c]) = (ofDecChars l) * 10 + (c.toNat - 48) := by
  simp [ofDecChars, List.foldl_append]

theorem ofDecChars_decChars : ∀ fuel n, n < fuel → ofDecChars (decChars fuel n) = n := by
  intro fuel
  induction fuel with
  | zero => intro n h; omega
  | succ f ih =>
      intro n h
      by_cases h10 : n < 10
      · simp [decChars, h10, ofDecChars]
        have := digitChar_val h10
        omega
      · have hdiv : n / 10 < n := Nat.div_lt_self (by omega) (by omega)
        simp only [decChars, h10, if_false]
        rw [ofDecChars_append_singleton, ih _ (by omega), digitChar_val (Nat.mod_lt _ (by omega))]
        omega

theorem natDecStr_inj {m n : Nat} (h : natDecStr m = natDecStr n) : m = n := by
  have hd : decChars (m + 1) m = decChars (n + 1) n := congrArg String.data h
  have h1 := ofDecChars_decChars (m + 1) m (by omega)
  have h2 := ofDecChars_decChars (n + 1) n (by omega)
  rw [← h1, ← h2, hd]

theorem string_append_cancel_left {a b c : String} (h : a ++ b = a ++ c) : b = c := by
  have hd : a.data ++ b.data = a.data ++ c.data := by
    simpa [String.data_append] using congrArg String.data h
  exact congrArg String.mk (List.append_cancel_left hd)

theorem string_append_singleton_cancel {a b : String} {c : Char}
    (h : a ++ String.mk [c] = b ++ String.mk [c]) : a = b := by
  have hd : a.data ++ [c] = b.data ++ [c] := by
    simpa [String.data_append] using congrArg String.data h
  exact congrArg String.mk (List.append_cancel_right hd)

/-- `List.indexOf?` of a member returns an index pointing back at that member. -/
theorem indexOf?_mem {α : Type} [DecidableEq α] {a : α} :
    ∀ {l : List α}, a ∈ l → ∃ i, l.indexOf? a = some i ∧ l.get? i = some a := by
  intro l
  induction l with
  | nil => intro h; cases h
  | cons b t ih =>
      intro h
      by_cases hb : b = a
      · exact ⟨0, by simp [List.indexOf?_cons, hb], by simp [hb]⟩
      · have ht : a ∈ t := by
          cases h with
          | head => exact absurd rfl hb
          | tail _ h => exact h
        obtain ⟨i, h1, h2⟩ := ih ht
        exact ⟨i + 1, by simp [List.indexOf?_cons, hb, h1], by simpa using h2⟩

/-- Two distinct members of a list make its length at least 2. -/
theorem one_lt_length_of_two_mem {α : Type} {a b : α} {l : List α}
    (ha : a ∈ l) (hb : b ∈ l) (hab : a ≠ b) : 1 < l.length := by
  match l with
  | [] => cases ha
  | [x] =>
      simp at ha hb
      exact absurd (ha.trans hb.symm) hab
  | x :: y :: t => simp only [List.length_cons]; omega

/-- Boolean shape shared by the classifier cascades. -/
theorem if_chain3_eq_not_or (a b c : Bool) :
    (if a then false else if b then false else if c then false else true) = !(a || b || c) := by
  cases a <;> cases b <;> cases c <;> rfl

/-! ### Claim C5 -/

/-- Claim C5 counterexample: an `a` element whose `id` attribute exists but is the
empty string.  Rule (a) of the claim produces `"#"`, while the source skips the
falsy `id` (and every later attribute rule) and returns the bare tag name. -/
theorem generate_selector_empty_id_counterexample :
    _generate_selector "a" [("id", "")] [] [] "x" = "a" ∧
    selectorSpecClaimed "a" [("id", "")] [] [] "x" = "#" ∧
    ("a" : String) ≠ "#" := by
  refine ⟨rfl, rfl, by decide⟩

/-- Claim C5 (amended): the selector cascade is as claimed, except that the
attribute-based rules (a) `#id`, (b) `data-*`, (e) `tag.class` and (f)
`#parentId > tag` fire only when the attribute value is non-empty (Python
truthiness), and an empty tag name yields the empty selector. -/
theorem generate_selector_matches_amended_spec :
    ∀ (tag : String) (attrs : List (String × String)) (dom : DOMHashMap)
      (pm : List (String × String)) (eid : String),
      _generate_selector tag attrs dom pm eid = selectorSpecAmended tag attrs dom pm eid := by
  intro tag attrs dom pm eid
  unfold _generate_selector selectorSpecAmended specRuleIdT specRuleDataT specRuleInput
    specRuleHref specRuleClassT specRuleParentT
  by_cases ht : tag == ""
  · simp [ht]
  · simp only [ht, Bool.false_eq_true, if_false]
    cases h1 : attrTruthy attrs "id" <;> simp [h1]

/-! ### Claim C6 -/

/-- Claim C6 counterexample: for the two `<a href="/x">` links of `domLinksHref`
(no `id`, no `data-*`, no class, parent `body` without `id`), the synthesized
selectors are both the href-rule selector `a[href='/x']` — equal, and not of the
claimed `parentTag > a:nth-of-type(k)` shape — because rule (d) precedes the
structural rules. -/
theorem nth_of_type_counterexample :
    lookupMap (selectorMapOf domLinksHref) "E1" = some "a[href='/x']" ∧
    lookupMap (selectorMapOf domLinksHref) "E2" = some "a[href='/x']" ∧
    ("a[href='/x']" : String) ≠ "body > a:nth-of-type(1)" ∧
    ("a[href='/x']" : String) ≠ "body > a:nth-of-type(2)" := by
  refine ⟨by decide, by decide, by decide, by decide⟩

/-- Claim C6 (amended): when additionally the links' `href` does not satisfy the
href rule (here: a `javascript:` URI), the selectors do fall back to
`parentTag > a:nth-of-type(k)` with correct, distinct `k` per link. -/
theorem nth_of_type_amended :
    lookupMap (selectorMapOf domLinksJs) "E1" = some "body > a:nth-of-type(1)" ∧
    lookupMap (selectorMapOf domLinksJs) "E2" = some "body > a:nth-of-type(2)" ∧
    ("body > a:nth-of-type(1)" : String) ≠ "body > a:nth-of-type(2)" := by
  refine ⟨by decide, by decide, by decide⟩

/-! ### Claim C8 -/

/-- Claim C8: an action carrying no `element_id` but a legacy `xpath_ref`
identifier that is present in `xpath_map` makes the resolver execute
`action.xpath = xpath_map[element_id]`; `Action` declares no `xpath` field, so
pydantic raises `ValueError` instead of attaching the xpath. -/
theorem legacy_xpath_ref_raises :
    process_element_references
        [{ type := "click", xpath_ref := some "E1" }]
        [("E1", "/html/body/a")] []
      = .error "ValueError: Action object has no field xpath" := rfl

/-! ### Claim C9 -/

/-- Claim C9 counterexample: a `div` whose only class token is `"foo-hidden"`.
No hiding condition of the claim holds (the token equals none of the hidden
class names, and there is no style/hidden/aria-hidden marker), so the claim
predicts `True`; the source's substring test sees `"hidden"` inside
`"foo-hidden"` and returns `False`. -/
theorem visible_class_token_counterexample :
    is_element_visible (.tag "div" [("class", .str "foo-hidden")] []) = false ∧
    visibleFalseClaimed (.tag "div" [("class", .str "foo-hidden")] []) = false := by
  refine ⟨by decide, by decide⟩

/-- Claim C9 (amended): `is_element_visible` returns `False` exactly when the
element's `style` is list-valued (internal error, fail-safe), or the style
contains `display:none`/`visibility:hidden`, or `hidden` is present, or
`aria-hidden="true"`, or some class token *contains* one of
{`hidden`,`invisible`,`displaynone`,`nodisplay`} as a case-insensitive
substring; otherwise it returns `True`. -/
theorem visible_false_characterization :
    ∀ (nm : String) (attrs : List (String × AttrVal)) (cs : List BSNode),
      is_element_visible (.tag nm attrs cs) = !visibleFalseAmended (.tag nm attrs cs) := by
  intro nm attrs cs
  unfold is_element_visible visibleFalseAmended
  rcases h : bsGet (.tag nm attrs cs) "style" with _ | v
  · simp only [h]
    exact if_chain3_eq_not_or _ _ _
  · cases v with
    | str s =>
        simp only [h]
        exact if_chain3_eq_not_or _ _ _
    | lst l => simp only [h]; rfl

/-! ### Claim C7 -/

/-- One action whose identifier is unknown passes through the resolver unchanged
and without raising. -/
theorem resolveAction_unknown (xm sm : List (String × String)) (a : Action)
    (h : unknownIdent xm sm a = true) : resolveAction xm sm a = .ok a := by
  by_cases h1 : pyTruthy a.element_id = true
  · have hid : actionIdent a = a.element_id := by unfold actionIdent; simp [h1]
    cases ha : a.element_id with
    | none => rw [ha] at h1; simp [pyTruthy] at h1
    | some e =>
        have h' : ((lookupMap xm e).isNone && (lookupMap sm e).isNone) = true := by
          unfold unknownIdent at h
          rw [hid, ha] at h
          exact h
        rw [Bool.and_eq_true, Option.isNone_iff_eq_none, Option.isNone_iff_eq_none] at h'
        unfold resolveAction
        rw [ha] at h1
        simp [h1, ha, h'.1, h'.2]
  · by_cases h2 : pyTruthy a.xpath_ref = true
    · have hid : actionIdent a = a.xpath_ref := by unfold actionIdent; simp [h1, h2]
      cases ha : a.xpath_ref with
      | none => rw [ha] at h2; simp [pyTruthy] at h2
      | some e =>
          have h' : ((lookupMap xm e).isNone && (lookupMap sm e).isNone) = true := by
            unfold unknownIdent at h
            rw [hid, ha] at h
            exact h
          rw [Bool.and_eq_true, Option.isNone_iff_eq_none, Option.isNone_iff_eq_none] at h'
          unfold resolveAction
          rw [ha] at h2
          simp [h1, h2, ha, h'.1, h'.2]
    · unfold resolveAction
      simp [h1, h2]

/-- Claim C7: for a response all of whose actions carry identifiers that are
absent from both `xpath_map` and `selector_map` (or carry no identifier at
all), the resolver returns without raising, leaves every action unchanged (in
particular the locator fields stay unset and the list length is unchanged),
and returns both maps unchanged. -/
theorem resolver_unknown_identifier (xm sm : List (String × String)) (actions : List Action)
    (h : ∀ a ∈ actions, unknownIdent xm sm a = true) :
    process_element_references actions xm sm = .ok (actions, xm, sm) := by
  have hm : resolveActions xm sm actions = .ok actions := by
    induction actions with
    | nil => rfl
    | cons a rest ih =>
        have ha := resolveAction_unknown xm sm a (h a (by simp))
        have hr := ih (fun b hb => h b (by simp [hb]))
        simp [resolveActions, ha, hr]
  unfold process_element_references
  rw [hm]

/-- Witness for claim C7 at a concrete response and concrete compaction maps. -/
theorem resolver_unknown_identifier_witness :
    (∀ a ∈ [{ type := "click", element_id := some "E9" : Action }, { type := "scroll" : Action }],
        unknownIdent (xpathMapOf domLinksHref) (selectorMapOf domLinksHref) a = true) ∧
    process_element_references
        [{ type := "click", element_id := some "E9" : Action }, { type := "scroll" : Action }]
        (xpathMapOf domLinksHref) (selectorMapOf domLinksHref)
      = .ok ([{ type := "click", element_id := some "E9" : Action }, { type := "scroll" : Action }],
          xpathMapOf domLinksHref, selectorMapOf domLinksHref) :=
  ⟨by decide, resolver_unknown_identifier _ _ _ (by decide)⟩

/-! ### Registration-fold lemmas (claims C1 and C4) -/

theorem registerStep_element_map (dom : DOMHashMap) (pm : List (String × String))
    (st : RegState) (kv : String × DOMNode) :
    (registerStep dom pm st kv).element_map =
      st.element_map ++
        (if shouldRegister kv.2 then [(kv.1, "E" ++ natDecStr st.next_id)] else []) := by
  rcases kv with ⟨gid, nd⟩
  cases nd with
  | textNode t v => simp [registerStep, shouldRegister]
  | element e =>
      cases h1 : e.isVisible <;>
        cases h2 : (e.isInteractive || formTags.contains (pyLower e.tagName)) <;>
          simp_all [registerStep, shouldRegister]

theorem registerStep_next_id (dom : DOMHashMap) (pm : List (String × String))
    (st : RegState) (kv : String × DOMNode) :
    (registerStep dom pm st kv).next_id =
      st.next_id + (if shouldRegister kv.2 then 1 else 0) := by
  rcases kv with ⟨gid, nd⟩
  cases nd with
  | textNode t v => simp [registerStep, shouldRegister]
  | element e =>
      cases h1 : e.isVisible <;>
        cases h2 : (e.isInteractive || formTags.contains (pyLower e.tagName)) <;>
          simp_all [registerStep, shouldRegister]

theorem registerStep_xpath_keys (dom : DOMHashMap) (pm : List (String × String))
    (st : RegState) (kv : String × DOMNode) (k : String)
    (hk : k ∈ ((registerStep dom pm st kv).xpath_map).map Prod.fst) :
    k ∈ st.xpath_map.map Prod.fst ∨ ∃ n, k = "E" ++ natDecStr n := by
  rcases kv with ⟨gid, nd⟩
  cases nd with
  | textNode t v => exact Or.inl (by simpa [registerStep] using hk)
  | element e =>
      cases h1 : e.isVisible <;>
        cases h2 : (e.isInteractive || formTags.contains (pyLower e.tagName)) <;>
          simp only [registerStep, h1, h2, Bool.not_true, Bool.not_false, Bool.false_eq_true,
            if_true, if_false] at hk
      all_goals try exact Or.inl hk
      split at hk
      · rcases (by simpa using hk : k ∈ st.xpath_map.map Prod.fst ∨ k = "E" ++ natDecStr st.next_id)
          with hold | hnew
        · exact Or.inl hold
        · exact Or.inr ⟨st.next_id, hnew⟩
      · exact Or.inl hk

theorem foldl_element_map (dom : DOMHashMap) (pm : List (String × String)) :
    ∀ (l : List (String × DOMNode)) (st : RegState),
      (l.foldl (registerStep dom pm) st).element_map = st.element_map ++ regDelta l st.next_id := by
  intro l
  induction l with
  | nil => intro st; simp [regDelta]
  | cons kv rest ih =>
      intro st
      rw [List.foldl_cons, ih, registerStep_element_map, registerStep_next_id]
      by_cases h : shouldRegister kv.2 <;> simp [regDelta, h]

theorem foldl_xpath_keys (dom : DOMHashMap) (pm : List (String × String)) :
    ∀ (l : List (String × DOMNode)) (st : RegState) (k : String),
      k ∈ ((l.foldl (registerStep dom pm) st).xpath_map).map Prod.fst →
      k ∈ st.xpath_map.map Prod.fst ∨ ∃ n, k = "E" ++ natDecStr n := by
  intro l
  induction l with
  | nil => intro st k hk; exact Or.inl hk
  | cons kv rest ih =>
      intro st k hk
      rw [List.foldl_cons] at hk
      rcases ih _ k hk with hmid | hnew
      · exact registerStep_xpath_keys dom pm st kv k hmid
      · exact Or.inr hnew

theorem lookupMap_some_mem {m : List (String × String)} {k v : String}
    (h : lookupMap m k = some v) : k ∈ m.map Prod.fst := by
  unfold lookupMap at h
  cases hf : m.find? (fun q => q.1 == k) with
  | none => rw [hf] at h; cases h
  | some q =>
      have hp := List.find?_some hf
      have hmem : q ∈ m := List.mem_of_find?_eq_some hf
      have hq : q.1 = k := by simpa using hp
      exact hq ▸ List.mem_map_of_mem Prod.fst hmem

theorem e_string_ne_empty (n : Nat) : ("E" ++ natDecStr n) ≠ "" := by
  intro h
  have := congrArg String.data h
  simp [String.data_append] at this

/-- Every key of the xpath map produced by compaction has the shape `E<n>`. -/
theorem xpathMapOf_key_shape (dom : DOMHashMap) (k : String)
    (hk : k ∈ (xpathMapOf dom).map Prod.fst) : ∃ n, k = "E" ++ natDecStr n := by
  unfold xpathMapOf _preprocess_dom at hk
  rcases foldl_xpath_keys dom (buildParentMap dom) dom {} k hk with hold | hnew
  · simp at hold
  · exact hnew

/-! ### Claim C1 -/

/-- Claim C1: if one compaction call registered an element under identifier `E`
with xpath `x` recorded in `xpath_map`, then resolving a response containing an
action with `element_id = E` attaches `x` to the action's xpath locator field
(the declared `xpath_ref` field of `Action`), and resolving the already-resolved
response again returns it unchanged (idempotent). -/
theorem resolve_roundtrip (dom : DOMHashMap) (E x : String) (a : Action)
    (hx : lookupMap (xpathMapOf dom) E = some x)
    (ha : a.element_id = some E) :
    ∃ a', process_element_references [a] (xpathMapOf dom) (selectorMapOf dom)
        = .ok ([a'], xpathMapOf dom, selectorMapOf dom)
      ∧ a'.xpath_ref = some x
      ∧ process_element_references [a'] (xpathMapOf dom) (selectorMapOf dom)
        = .ok ([a'], xpathMapOf dom, selectorMapOf dom) := by
  obtain ⟨n, hn⟩ := xpathMapOf_key_shape dom E (lookupMap_some_mem hx)
  have hE : E ≠ "" := hn ▸ e_string_ne_empty n
  have htr : pyTruthy (some E) = true := by simp [pyTruthy, hE]
  obtain ⟨ty, eid, xr, sel, tx, am, u⟩ := a
  simp only [] at ha
  subst ha
  cases hs : lookupMap (selectorMapOf dom) E with
  | none =>
      refine ⟨⟨ty, some E, some x, sel, tx, am, u⟩, ?_, rfl, ?_⟩ <;>
        simp [process_element_references, resolveActions, resolveAction, htr, hx, hs]
  | some s =>
      refine ⟨⟨ty, some E, some x, some s, tx, am, u⟩, ?_, rfl, ?_⟩ <;>
        simp [process_element_references, resolveActions, resolveAction, htr, hx, hs]

/-- Witness for claim C1: the first link of `domLinksHref`, registered as `E1`
with xpath `/body/a[1]`. -/
theorem resolve_roundtrip_witness :
    lookupMap (xpathMapOf domLinksHref) "E1" = some "/body/a[1]" ∧
    ∃ a', process_element_references [{ type := "click", element_id := some "E1" }]
        (xpathMapOf domLinksHref) (selectorMapOf domLinksHref)
      = .ok ([a'], xpathMapOf domLinksHref, selectorMapOf domLinksHref)
      ∧ a'.xpath_ref = some "/body/a[1]"
      ∧ process_element_references [a'] (xpathMapOf domLinksHref) (selectorMapOf domLinksHref)
        = .ok ([a'], xpathMapOf domLinksHref, selectorMapOf domLinksHref) :=
  ⟨by decide, resolve_roundtrip domLinksHref "E1" "/body/a[1]"
      { type := "click", element_id := some "E1" } (by decide) rfl⟩

/-! ### Claim C4 -/

theorem regDelta_keys_sub : ∀ (l : List (String × DOMNode)) (n : Nat) (k : String),
    k ∈ (regDelta l n).map Prod.fst → k ∈ l.map Prod.fst := by
  intro l
  induction l with
  | nil => intro n k hk; simp [regDelta] at hk
  | cons kv rest ih =>
      intro n k hk
      by_cases h : shouldRegister kv.2 = true
      · simp only [regDelta, h, if_true, List.map_cons, List.mem_cons] at hk
        rcases hk with hk | hk
        · simp [hk]
        · simpa using Or.inr (ih _ k hk)
      · rw [Bool.not_eq_true] at h
        simp only [regDelta, h, Bool.false_eq_true, if_false] at hk
        simpa using Or.inr (ih _ k hk)

theorem lookupMap_none_of_not_mem {m : List (String × String)} {k : String}
    (h : k ∉ m.map Prod.fst) : lookupMap m k = none := by
  unfold lookupMap
  rw [List.find?_eq_none.mpr]
  · rfl
  · intro q hq hbeq
    have heq : q.1 = k := eq_of_beq hbeq
    exact h (heq ▸ List.mem_map_of_mem Prod.fst hq)

theorem regDelta_lookup : ∀ (l : List (String × DOMNode)) (n : Nat) (gid : String),
    (l.map Prod.fst).Nodup →
    ((lookupMap (regDelta l n) gid).isSome = true ↔
      ∃ nd, domGet l gid = some nd ∧ shouldRegister nd = true) := by
  intro l
  induction l with
  | nil =>
      intro n gid _
      simp [regDelta, lookupMap, domGet]
  | cons kv rest ih =>
      intro n gid hnd
      rcases kv with ⟨g, nd⟩
      simp only [List.map_cons, List.nodup_cons] at hnd
      by_cases hg : g = gid
      · subst hg
        have hget : domGet ((g, nd) :: rest) g = some nd := by simp [domGet]
        by_cases hr : shouldRegister nd = true
        · simp only [regDelta, hr, if_true]
          constructor
          · intro _; exact ⟨nd, hget, hr⟩
          · intro _; simp [lookupMap]
        · rw [Bool.not_eq_true] at hr
          simp only [regDelta, hr, Bool.false_eq_true, if_false]
          have hnone : lookupMap (regDelta rest n) g = none :=
            lookupMap_none_of_not_mem (fun hmem => hnd.1 (regDelta_keys_sub rest n g hmem))
          rw [hnone, hget]
          simp only [Option.isSome_none, Bool.false_eq_true, false_iff]
          rintro ⟨nd', hnd', hr'⟩
          cases hnd'
          rw [hr'] at hr
          cases hr
      · have hget : domGet ((g, nd) :: rest) gid = domGet rest gid := by
          simp [domGet, List.find?_cons_of_neg, hg]
        have hstep : ∀ m, lookupMap (regDelta ((g, nd) :: rest) m) gid
            = lookupMap (regDelta rest (m + (if shouldRegister nd then 1 else 0))) gid := by
          intro m
          by_cases hr : shouldRegister nd = true
          · simp [regDelta, hr, lookupMap, List.find?_cons_of_neg, hg]
          · rw [Bool.not_eq_true] at hr
            simp [regDelta, hr]
        rw [hstep n, hget]
        exact ih _ gid hnd.2

theorem regDelta_snd : ∀ (l : List (String × DOMNode)) (n : Nat),
    (regDelta l n).map Prod.snd
      = (List.range (regDelta l n).length).map (fun i => "E" ++ natDecStr (n + i)) := by
  intro l
  induction l with
  | nil => intro n; simp [regDelta]
  | cons kv rest ih =>
      intro n
      by_cases h : shouldRegister kv.2 = true
      · simp only [regDelta, h, if_true, List.map_cons, List.length_cons,
          List.range_succ_eq_map, Nat.add_zero]
        refine congrArg (fun t => _ :: t) ?_
        rw [ih (n + 1), List.map_map]
        refine List.map_congr_left ?_
        intro i _
        simp only [Function.comp]
        refine congrArg (fun s => "E" ++ s) (congrArg natDecStr ?_)
        omega
      · rw [Bool.not_eq_true] at h
        simp only [regDelta, h, Bool.false_eq_true, if_false]
        exact ih n

/-- The element map of a compaction run is exactly the `regDelta` of the graph,
numbered from 1. -/
theorem elementMapOf_eq_regDelta (dom : DOMHashMap) : elementMapOf dom = regDelta dom 1 := by
  unfold elementMapOf _preprocess_dom
  rw [foldl_element_map]
  rfl

/-- Claim C4: within one compaction call, a graph entry is registered (appears in
the element map) iff it is an element node that is visible and interactive or
form-tagged (`shouldRegister`); in particular text nodes are never registered.
The assigned identifiers, in discovery order, are exactly `E1, E2, ...` (so they
are never reused: the identifier list is duplicate-free). -/
theorem preprocess_registration_spec (dom : DOMHashMap)
    (hnd : (dom.map Prod.fst).Nodup) :
    (∀ gid, (lookupMap (elementMapOf dom) gid).isSome = true ↔
        ∃ nd, domGet dom gid = some nd ∧ shouldRegister nd = true) ∧
    (elementMapOf dom).map Prod.snd
      = (List.range (elementMapOf dom).length).map (fun i => "E" ++ natDecStr (i + 1)) ∧
    ((elementMapOf dom).map Prod.snd).Nodup := by
  have hem := elementMapOf_eq_regDelta dom
  have hsnd : (elementMapOf dom).map Prod.snd
      = (List.range (elementMapOf dom).length).map (fun i => "E" ++ natDecStr (i + 1)) := by
    rw [hem, regDelta_snd]
    refine List.map_congr_left ?_
    intro i _
    refine congrArg (fun s => "E" ++ s) (congrArg natDecStr ?_)
    omega
  refine ⟨fun gid => ?_, hsnd, ?_⟩
  · rw [hem]
    exact regDelta_lookup dom 1 gid hnd
  · rw [hsnd]
    refine List.Nodup.map ?_ (List.nodup_range _)
    intro i j hij
    have : natDecStr (i + 1) = natDecStr (j + 1) :=
      string_append_cancel_left hij
    have := natDecStr_inj this
    omega

/-- Witness for claim C4 on the concrete graph `domLinksHref` (keys are unique;
the two links are registered as `E1`, `E2`; the body and nothing else). -/
theorem preprocess_registration_spec_witness :
    (domLinksHref.map Prod.fst).Nodup ∧
    (elementMapOf domLinksHref).map Prod.snd
      = (List.range (elementMapOf domLinksHref).length).map (fun i => "E" ++ natDecStr (i + 1)) :=
  ⟨by decide, (preprocess_registration_spec domLinksHref (by decide)).2.1⟩

/-! ### Claim C3 -/

theorem pyJoin_cons_of_ne_nil (sep a : String) {l : List String} (h : l ≠ []) :
    pyJoin sep (a :: l) = a ++ sep ++ pyJoin sep l := by
  cases l with
  | nil => exact absurd rfl h
  | cons b t => rfl

theorem pyJoin_append_singleton_inj (F : List String) (s1 s2 : String)
    (h : pyJoin "/" (F ++ [s1]) = pyJoin "/" (F ++ [s2])) : s1 = s2 := by
  induction F with
  | nil => simpa [pyJoin] using h
  | cons f F ih =>
      rw [List.cons_append, List.cons_append,
        pyJoin_cons_of_ne_nil _ _ (by simp), pyJoin_cons_of_ne_nil _ _ (by simp)] at h
      exact ih (string_append_cancel_left h)

/-- An indexed segment `nm[i]` is never the filtered `"[document]"` part when the
tag name is nonempty and does not start with `[`. -/
theorem segment_ne_document {nm d : String} (hnm : nm ≠ "")
    (hhead : nm.data.head? ≠ some '[') : nm ++ "[" ++ d ++ "]" ≠ "[document]" := by
  intro h
  have hd := congrArg String.data h
  simp only [String.data_append] at hd
  cases hc : nm.data with
  | nil => exact hnm (congrArg String.mk hc)
  | cons c cschars =>
      rw [hc] at hd
      have hh := congrArg List.head? hd
      simp at hh
      rw [hc] at hhead
      exact hhead (by simp [hh])

/-- Claim C3 counterexample: `<div><a/><a/></div>`.  The two same-tag siblings at
positions 0 and 1 are equal bs4 values, so `siblings.index` returns 0 for both
and both compute the xpath `/div/a[1]` — the computed xpath is *not* unique
among same-tag siblings. -/
theorem xpath_identical_siblings_counterexample :
    (bsChildren (.tag "div" [] [.tag "a" [] [], .tag "a" [] []])).length = 2 ∧
    get_xpath_for_element [.tag "div" [] [.tag "a" [] [], .tag "a" [] []]]
        ((bsChildren (.tag "div" [] [.tag "a" [] [], .tag "a" [] []])).getD 0 (.txt ""))
      = get_xpath_for_element [.tag "div" [] [.tag "a" [] [], .tag "a" [] []]]
          ((bsChildren (.tag "div" [] [.tag "a" [] [], .tag "a" [] []])).getD 1 (.txt "")) ∧
    get_xpath_for_element [.tag "div" [] [.tag "a" [] [], .tag "a" [] []]]
        ((bsChildren (.tag "div" [] [.tag "a" [] [], .tag "a" [] []])).getD 0 (.txt ""))
      = "/div/a[1]" := by
  refine ⟨by decide, by decide, by decide⟩

/-- Claim C3 (amended): the Graph Builder's xpath (ancestor walk, 1-based
`tagname[n]` index exactly when more than one sibling shares the tag) is unique
among same-tag siblings that are *distinct as bs4 values* (equal sibling subtrees
share one index, hence one xpath).  `nm` is a parser-produced tag name
(nonempty, lowercase, not starting with `[`), and the ancestor walk above the
parent is assumed to succeed (as it does for parser-produced chains). -/
theorem xpath_unique_distinct_siblings
    (pnm nm : String) (pattrs : List (String × AttrVal)) (cs rest : List BSNode)
    (c1 c2 : BSNode) (tailW : List String)
    (h1 : c1 ∈ cs) (h2 : c2 ∈ cs) (hne : c1 ≠ c2)
    (ht1 : bsIsTag c1 = true) (ht2 : bsIsTag c2 = true)
    (hn1 : bsName c1 = nm) (hn2 : bsName c2 = nm)
    (hlow : pyLower nm = nm) (hnm : nm ≠ "") (hhead : nm.data.head? ≠ some '[')
    (hwalk : xpathWalk (.tag pnm pattrs cs) rest = some tailW) :
    get_xpath_for_element ((BSNode.tag pnm pattrs cs) :: rest) c1 ≠
      get_xpath_for_element ((BSNode.tag pnm pattrs cs) :: rest) c2 := by
  have hm1 : c1 ∈ cs.filter (fun s => bsIsTag s && bsName s == nm) :=
    List.mem_filter.mpr ⟨h1, by simp [ht1, hn1]⟩
  have hm2 : c2 ∈ cs.filter (fun s => bsIsTag s && bsName s == nm) :=
    List.mem_filter.mpr ⟨h2, by simp [ht2, hn2]⟩
  have hlen : 1 < (cs.filter (fun s => bsIsTag s && bsName s == nm)).length :=
    one_lt_length_of_two_mem hm1 hm2 hne
  obtain ⟨i1, hio1, hget1⟩ := indexOf?_mem hm1
  obtain ⟨i2, hio2, hget2⟩ := indexOf?_mem hm2
  have hii : i1 ≠ i2 := by
    intro hEq
    rw [hEq] at hget1
    exact hne (Option.some.inj (hget1.symm.trans hget2))
  have hseg1 : xpathSegment (some cs) c1 = some (nm ++ "[" ++ natDecStr (i1 + 1) ++ "]") := by
    unfold xpathSegment
    rw [hn1, hlow]
    simp only [if_pos hlen, hio1]
  have hseg2 : xpathSegment (some cs) c2 = some (nm ++ "[" ++ natDecStr (i2 + 1) ++ "]") := by
    unfold xpathSegment
    rw [hn2, hlow]
    simp only [if_pos hlen, hio2]
  have hcond1 : (bsIsTag c1 && decide (bsName c1 ≠ "")) = true := by
    rw [hn1]; simp [ht1, hnm]
  have hcond2 : (bsIsTag c2 && decide (bsName c2 ≠ "")) = true := by
    rw [hn2]; simp [ht2, hnm]
  have hwalk1 : xpathWalk c1 ((BSNode.tag pnm pattrs cs) :: rest)
      = some ((nm ++ "[" ++ natDecStr (i1 + 1) ++ "]") :: tailW) := by
    unfold xpathWalk
    rw [if_pos hcond1]
    simp only [bsChildren, hseg1, hwalk]
  have hwalk2 : xpathWalk c2 ((BSNode.tag pnm pattrs cs) :: rest)
      = some ((nm ++ "[" ++ natDecStr (i2 + 1) ++ "]") :: tailW) := by
    unfold xpathWalk
    rw [if_pos hcond2]
    simp only [bsChildren, hseg2, hwalk]
  have hdoc1 : (nm ++ "[" ++ natDecStr (i1 + 1) ++ "]") ≠ "[document]" :=
    segment_ne_document hnm hhead
  have hdoc2 : (nm ++ "[" ++ natDecStr (i2 + 1) ++ "]") ≠ "[document]" :=
    segment_ne_document hnm hhead
  intro hcontra
  unfold get_xpath_for_element at hcontra
  rw [hwalk1, hwalk2] at hcontra
  simp [List.reverse_cons, List.filter_append, List.filter_cons, List.filter_nil,
    hdoc1, hdoc2] at hcontra
  have hjoin := string_append_cancel_left hcontra
  have hsegEq := pyJoin_append_singleton_inj _ _ _ hjoin
  have hbr : ("]" : String) = String.mk [']'] := rfl
  rw [hbr] at hsegEq
  have hd := string_append_singleton_cancel hsegEq
  have hnum := string_append_cancel_left hd
  have := natDecStr_inj hnum
  omega

/-- Witness for claim C3 (amended) on two distinct `<a>` siblings of a `div`. -/
theorem xpath_unique_distinct_siblings_witness :
    get_xpath_for_element
        [BSNode.tag "div" [] [.tag "a" [("id", .str "1")] [], .tag "a" [("id", .str "2")] []]]
        (.tag "a" [("id", .str "1")] []) ≠
      get_xpath_for_element
        [BSNode.tag "div" [] [.tag "a" [("id", .str "1")] [], .tag "a" [("id", .str "2")] []]]
        (.tag "a" [("id", .str "2")] []) :=
  xpath_unique_distinct_siblings "div" "a" []
    [.tag "a" [("id", .str "1")] [], .tag "a" [("id", .str "2")] []] []
    (.tag "a" [("id", .str "1")] []) (.tag "a" [("id", .str "2")] []) ["div"]
    (by decide) (by decide) (by decide) (by decide) (by decide) (by decide) (by decide)
    (by decide) (by decide) (by decide) (by decide)

/-! ### Claim C2 -/

mutual

theorem processNode_entries_le (p : Option BSNode) (anc : List BSNode) (cid : Nat) :
    ∀ n : BSNode, (processNode p anc cid n).2.2.length ≤ nodeCount n
  | .txt s => by
      simp only [processNode, nodeCount]
      split <;> simp
  | .tag nm attrs cs => by
      have h := processChildren_entries_le (some (.tag nm attrs cs))
        ((BSNode.tag nm attrs cs) :: anc) (cid + 1) cs
      simp only [processNode, nodeCount, List.length_cons]
      omega

theorem processChildren_entries_le (p : Option BSNode) (anc : List BSNode) (cid : Nat) :
    ∀ ns : List BSNode, (processChildren p anc cid ns).2.2.length ≤ nodeCountList ns
  | [] => by simp [processChildren, nodeCountList]
  | c :: rest => by
      have hc := processNode_entries_le p anc cid c
      have hr := processChildren_entries_le p anc (processNode p anc cid c).2.1 rest
      simp only [processChildren, nodeCountList, List.length_append]
      omega

end

/-- Claim C2: `parse_dom` is a total function into node maps — in the embedding
every Python-level failure is a caught, value-producing path, so no input can
raise.  When the parsed soup has no `body` (in particular for a totally
malformed document) the result is the empty map, and for any body tree the map
is finite, with at most one entry per soup node. -/
theorem parse_dom_total :
    (∀ anc : List BSNode, parse_dom none anc = []) ∧
    (∀ (t : BSNode) (anc : List BSNode), (parse_dom (some t) anc).length ≤ nodeCount t) := by
  refine ⟨fun anc => rfl, fun t anc => ?_⟩
  unfold parse_dom
  exact processNode_entries_le anc.head? anc 0 t

/-! ### Claim C10 -/

/-- The owned-text extractor never emits more than `max_text_length` characters:
over-long text is cut to `max_text_length - 3` characters plus the 3-character
ellipsis. -/
theorem owned_text_le (dom : DOMHashMap) (inter : List String) (eid : String) :
    (_get_text_till_next_highlighted dom inter eid).length ≤ maxTextLength := by
  unfold _get_text_till_next_highlighted
  dsimp only
  split
  · rename_i hcond
    rw [Bool.and_eq_true] at hcond
    have hlen : maxTextLength <
        (pyStrip (pyJoin " " (collectText dom inter eid (maxDepth + 1) eid ([], [])).2)).length := by
      simpa using of_decide_eq_true hcond.2
    rw [String.length_append]
    have htake : (pyTake (pyStrip (pyJoin " "
        (collectText dom inter eid (maxDepth + 1) eid ([], [])).2)) (maxTextLength - 3)).length
        = min (maxTextLength - 3)
          (pyStrip (pyJoin " " (collectText dom inter eid (maxDepth + 1) eid ([], [])).2)).length :=
    List.length_take _ _
    rw [htake]
    have hdots : ("..." : String).length = 3 := rfl
    rw [hdots]
    have hm : maxTextLength = 500 := rfl
    omega
  · rename_i hcond
    rw [Bool.and_eq_true, not_and_or] at hcond
    rcases hcond with hempty | hlong
    · have : pyStrip (pyJoin " " (collectText dom inter eid (maxDepth + 1) eid ([], [])).2) = "" := by
        simpa using hempty
      rw [this]
      simp [String.length, maxTextLength]
    · have : ¬ maxTextLength <
          (pyStrip (pyJoin " " (collectText dom inter eid (maxDepth + 1) eid ([], [])).2)).length := by
        simpa using hlong
      omega

/-- One `_extract_standalone_text` step only appends bullet lines bounded by
`2 + (max_text_length + 3)` characters (`"- "` plus truncated text plus
ellipsis). -/
theorem extractStep_lines (inter : List String) (pm : List (String × String))
    (acc : List String × List String) (kv : String × DOMNode) (line : String)
    (hl : line ∈ (extractStep inter pm acc kv).1) :
    line ∈ acc.1 ∨ line.length ≤ 2 + (maxTextLength + 3) := by
  rcases kv with ⟨gid, nd⟩
  cases nd with
  | element e => exact Or.inl hl
  | textNode t vis =>
      unfold extractStep at hl
      by_cases hv : vis
      · simp only [hv, Bool.not_true, Bool.false_eq_true, if_false] at hl
        split at hl
        · exact Or.inl hl
        · split at hl
          · exact Or.inl hl
          · split at hl
            · exact Or.inl hl
            · dsimp only at hl
              rcases List.mem_append.mp hl with hold | hnew
              · exact Or.inl hold
              · right
                rw [List.mem_singleton] at hnew
                subst hnew
                rw [String.length_append]
                have h2 : ("- " : String).length = 2 := rfl
                rw [h2]
                split
                · rw [String.length_append]
                  have : (pyTake (pyStrip t) maxTextLength).length
                      = min maxTextLength (pyStrip t).length :=
                    List.length_take _ _
                  rw [this]
                  have hdots : ("..." : String).length = 3 := rfl
                  rw [hdots]
                  omega
                · rename_i hshort
                  have : ¬ maxTextLength < (pyStrip t).length := by simpa using hshort
                  omega
      · simp only [Bool.not_eq_true] at hv
        simp only [hv, Bool.not_false, if_true] at hl
        exact Or.inl hl

theorem extract_fold_lines (inter : List String) (pm : List (String × String)) :
    ∀ (l : List (String × DOMNode)) (acc : List String × List String) (line : String),
      line ∈ (l.foldl (extractStep inter pm) acc).1 →
      line ∈ acc.1 ∨ line.length ≤ 2 + (maxTextLength + 3) := by
  intro l
  induction l with
  | nil => intro acc line h; exact Or.inl h
  | cons kv rest ih =>
      intro acc line h
      rw [List.foldl_cons] at h
      rcases ih _ line h with hmid | hbound
      · exact extractStep_lines inter pm acc kv line hmid
      · exact Or.inr hbound

set_option maxRecDepth 100000 in
/-- Claim C10 counterexample: a 501-character text owned by `<body>`.  The
owned-text path truncates to exactly `max_text_length` (500) characters
including the ellipsis, but the standalone-text path keeps
`max_text_length` characters *and* appends the ellipsis: its bullet is
`"- " ++ 503` characters, so the bullet text (503) exceeds both the cap and the
truncated owned text (500). -/
theorem truncation_lengths_counterexample :
    (_get_text_till_next_highlighted domLongText (interactiveOf domLongText) "0").length = 500 ∧
    ((_extract_standalone_text domLongText (interactiveOf domLongText)
        (parentMapOf domLongText)).headD "").length = 505 ∧
    maxTextLength = 500 ∧ 505 - 2 > maxTextLength := by
  refine ⟨by decide, by decide, rfl, by decide⟩

/-- Claim C10 (amended): owned per-element text is truncated to at most
`max_text_length` characters (ellipsis included), while a standalone-text bullet
is `"- "` plus at most `max_text_length + 3` characters (the cap *plus* a
trailing ellipsis) — so a standalone bullet may exceed truncated owned text by
up to 3 characters. -/
theorem truncation_bounds :
    (∀ (dom : DOMHashMap) (inter : List String) (eid : String),
        (_get_text_till_next_highlighted dom inter eid).length ≤ maxTextLength) ∧
    (∀ (dom : DOMHashMap) (inter : List String) (pm : List (String × String)) (line : String),
        line ∈ _extract_standalone_text dom inter pm →
        line.length ≤ 2 + (maxTextLength + 3)) := by
  refine ⟨owned_text_le, fun dom inter pm line h => ?_⟩
  unfold _extract_standalone_text at h
  rcases extract_fold_lines inter pm dom ([], []) line h with hnil | hbound
  · cases hnil
  · exact hbound

/-- Witness for claim C10 (amended) at a concrete standalone bullet line. -/
theorem truncation_bounds_witness :
    ("- standalone page text here" ∈ _extract_standalone_text domShortText
        (interactiveOf domShortText) (parentMapOf domShortText)) ∧
    ("- standalone page text here" : String).length ≤ 2 + (maxTextLength + 3) :=
  ⟨by decide, truncation_bounds.2 domShortText (interactiveOf domShortText)
      (parentMapOf domShortText) "- standalone page text here" (by decide)⟩

end Navigator
